import Mathlib

/-!
Verification of the MMM-Tube-Times node helper (src/node_helper.js).

The helper has two request/response flows:
* `getTubeStatusData` (arrivals): one HTTP GET, the response array is passed
  through verbatim, `null` on failure.
* `getTubeLineStatusData` (line status): one HTTP GET, the first line entry is
  summarised: messages are standardized and deduplicated by text, the worst
  status severity is classified through `mapStatusSeverity`.

The embedding models the helper object state (`this.url`, `this.serviceURL`,
`this.tubeStatus`, `this.result`) explicitly, and models each handler as a
total function of the state, the request payload, and the fetch outcome
(`Except Unit _`: `.error` is the axios rejection path).  JS strings use
`String` with `""` standing for both the empty string and an absent/undefined
string field wherever the code only tests truthiness; genuinely optional
objects (the nested disruption, the `lineStatuses`/`disruptions` arrays, the
helper fields before first assignment) are `Option`.  A socket notification is
a structure; a field the code omits on some path is `Option`-valued at the
notification level (`none` = field absent from the payload).
-/

namespace TubeTimes

/-- JS `a || b` for strings: the empty string is falsy. -/
def strOr (a b : String) : String := if a = "" then b else a

/-- JS `a || b` where `a` may be `undefined` (`none`) or a string. -/
def optStrOr (a : Option String) (b : String) : String :=
  match a with
  | none => b
  | some t => strOr t b

/-- `TFLNestedDisruption` typedef: the disruption object nested inside a line
status.  Fields the code never reads (`$type`, `affectedRoutes`,
`affectedStops`) are omitted. -/
structure TFLNestedDisruption where
  category : String
  categoryDescription : String
  description : String
  closureText : String
  deriving Repr, DecidableEq

/-- `TFLDisruption` typedef: a top-level disruption attached to a line.
Fields the code never reads (`$type`, `affectedRoutes`, `affectedStops`) are
omitted. -/
structure TFLDisruption where
  category : String
  categoryDescription : String
  description : String
  closureText : String
  deriving Repr, DecidableEq

/-- `TFLLineStatus` typedef: one entry of a line's status array.
`statusSeverity` is the 0-20 numeric code; `disruption` is the optional nested
disruption.  `validityPeriods` and `$type` are never read and are omitted. -/
structure TFLLineStatus where
  id : Nat
  lineId : String
  statusSeverity : Nat
  statusSeverityDescription : String
  reason : String
  created : String
  disruption : Option TFLNestedDisruption
  deriving Repr, DecidableEq

/-- `TFLLine` typedef: one element of the line-status response array.  The
code reads only `lineStatuses` and `disruptions`, both guarded with `|| []`,
so both are `Option` here (`none` = field missing/null/undefined).
`routeSections`, `serviceTypes`, `crowding`, `$type` are never read and are
omitted. -/
structure TFLLine where
  id : String
  name : String
  modeName : String
  disruptions : Option (List TFLDisruption)
  created : String
  modified : String
  lineStatuses : Option (List TFLLineStatus)
  deriving Repr, DecidableEq

/-- `TFLArrival` typedef: one arrival record.  The code never inspects these
fields; they are carried verbatim. -/
structure TFLArrival where
  id : String
  operationType : Nat
  vehicleId : String
  naptanId : String
  stationId : String
  lineId : String
  lineName : String
  platformName : String
  direction : String
  bearing : String
  destinationNaptanId : String
  destinationName : String
  timestamp : String
  timeToStation : Nat
  currentLocation : String
  towards : String
  expectedArrival : String
  timeToLive : String
  modeName : String
  deriving Repr, DecidableEq

/-- `StandardizedMessage` typedef: the unified message shape. -/
structure StandardizedMessage where
  text : String
  statusSeverity : Nat
  statusSeverityDescription : String
  category : String
  categoryDescription : String
  deriving Repr, DecidableEq

/-- `mapStatusSeverity` (node_helper.js lines 101-116): maps the numeric
severity code to `"good"`, `"severe"` or `"warning"`.  `===` comparisons become
equalities, `[1,2,3,6,16,20].includes(x)` becomes list membership. -/
def mapStatusSeverity (statusSeverity : Nat) : String :=
  if statusSeverity = 10 ∨ statusSeverity = 18 ∨ statusSeverity = 19 then
    "good"
  else if statusSeverity ∈ ([1, 2, 3, 6, 16, 20] : List Nat) then
    "severe"
  else
    "warning"

/-- The helper object's mutable fields: `this.url`, `this.serviceURL`,
`this.tubeStatus`, `this.result`.  All start `undefined` (`none`); `start()`
sets `this.result = null`, which is also `none`. -/
structure HelperState where
  url : Option String
  serviceURL : Option String
  tubeStatus : Option String
  result : Option (List TFLArrival)
  deriving Repr, DecidableEq

/-- Payload of the `GOT-TUBE-TIMES` socket notification. -/
structure TubeTimesNotification where
  url : Option String
  result : Option (List TFLArrival)
  deriving Repr, DecidableEq

/-- Payload of the `GOT-TUBE-LINE-STATUS` socket notification.
`tubeStatusDescription` is doubly optional: `none` means the field is omitted
from the payload (the empty-array and failure paths), `some none` means the
field is present with value `null`. -/
structure LineStatusNotification where
  serviceURL : Option String
  tubeStatus : String
  tubeStatusDescription : Option (Option String)
  combinedMessages : List StandardizedMessage
  deriving Repr, DecidableEq

/-- `getTubeStatusData` (lines 134-150): sets `this.url = payload`, performs
the GET; on success stores and forwards the response array verbatim, on
failure stores and forwards `null`. -/
def getTubeStatusData (s : HelperState) (payload : String)
    (outcome : Except Unit (List TFLArrival)) :
    HelperState × TubeTimesNotification :=
  let s1 : HelperState := { s with url := some payload }
  match outcome with
  | .ok data =>
    let s2 : HelperState := { s1 with result := some data }
    (s2, { url := s2.url, result := s2.result })
  | .error _ =>
    let s2 : HelperState := { s1 with result := none }
    (s2, { url := s2.url, result := s2.result })

/-- Filter on line statuses (line 175):
`status.reason || (status.disruption && status.disruption.description)`. -/
def statusMessageFilter (status : TFLLineStatus) : Bool :=
  status.reason != "" ||
    (match status.disruption with
     | some d => d.description != ""
     | none => false)

/-- Message built from one line status (lines 176-182).  `a?.f || ''` is
embedded as `strOr ((a.map f).getD "") ""`: an absent disruption gives
`undefined`, which `|| ''` turns into the empty string. -/
def statusMessage (status : TFLLineStatus) : StandardizedMessage :=
  { text := strOr status.reason
      (strOr ((status.disruption.map TFLNestedDisruption.description).getD "") "")
    statusSeverity := status.statusSeverity
    statusSeverityDescription := status.statusSeverityDescription
    category := strOr ((status.disruption.map TFLNestedDisruption.category).getD "") ""
    categoryDescription :=
      strOr ((status.disruption.map TFLNestedDisruption.categoryDescription).getD "") "" }

/-- `messagesFromStatuses` (lines 174-182). -/
def messagesFromStatuses (lineStatuses : List TFLLineStatus) :
    List StandardizedMessage :=
  (lineStatuses.filter statusMessageFilter).map statusMessage

/-- Message built from one top-level disruption (lines 188-194). -/
def disruptionMessage (d : TFLDisruption) : StandardizedMessage :=
  { text := d.description
    statusSeverity := 0
    statusSeverityDescription := ""
    category := strOr d.category ""
    categoryDescription := strOr d.categoryDescription "" }

/-- `messagesFromDisruptions` (lines 186-194). -/
def messagesFromDisruptions (disruptions : List TFLDisruption) :
    List StandardizedMessage :=
  (disruptions.filter (fun d => d.description != "")).map disruptionMessage

/-- One step of the dedup loop (lines 201-206): insert `message` at the end
iff its text is non-empty and no already-inserted message has the same text
(the `Map.has` check; the `Map` keeps insertion order, so it is an append). -/
def dedupStep (acc : List StandardizedMessage) (message : StandardizedMessage) :
    List StandardizedMessage :=
  if message.text != "" && acc.all (fun m => m.text != message.text) then
    acc ++ [message]
  else
    acc

/-- Deduplication by text (lines 200-209): `allMessages.forEach` inserting
into an insertion-ordered `Map` keyed by `text`, then `Array.from(values())`. -/
def dedupByText (allMessages : List StandardizedMessage) :
    List StandardizedMessage :=
  allMessages.foldl dedupStep []

/-- One iteration of the worst-severity loop (lines 216-223). -/
def worstSeverityStep (worstSeverity : Nat) (status : TFLLineStatus) : Nat :=
  let severity := status.statusSeverity
  if severity ≠ 10 ∧ severity ≠ 18 ∧ severity ≠ 19 then
    if severity < worstSeverity ∨ worstSeverity = 10 then severity
    else worstSeverity
  else worstSeverity

/-- Worst-status computation (lines 212-225): `worstSeverity` starts at 10;
only when `lineStatuses` is non-empty is the loop run and the result mapped,
otherwise `worstStatus` keeps its initial value `"good"`. -/
def worstStatusOf (lineStatuses : List TFLLineStatus) : String :=
  if lineStatuses.length > 0 then
    mapStatusSeverity (lineStatuses.foldl worstSeverityStep 10)
  else
    "good"

/-- The `.catch` callback of `getTubeLineStatusData` (lines 249-257): sets
`this.result = null` and sends `this.tubeStatus || "good"` with empty
messages; the `tubeStatusDescription` field is not part of the payload. -/
def lineStatusOnError (s : HelperState) : HelperState × LineStatusNotification :=
  let s2 : HelperState := { s with result := none }
  (s2, { serviceURL := s2.serviceURL
         tubeStatus := optStrOr s2.tubeStatus "good"
         tubeStatusDescription := none
         combinedMessages := [] })

/-- `getTubeLineStatusData` (lines 155-258): sets `this.serviceURL = payload`,
performs the GET; on success takes the first line entry (if any), builds and
deduplicates the standardized messages, computes the worst status, and sends
the summary; on an empty response array sends the `"good"` default; on
failure runs the catch callback. -/
def getTubeLineStatusData (s : HelperState) (payload : String)
    (outcome : Except Unit (List TFLLine)) :
    HelperState × LineStatusNotification :=
  let s1 : HelperState := { s with serviceURL := some payload }
  match outcome with
  | .error _ => lineStatusOnError s1
  | .ok data =>
    match data with
    | lineData :: _ =>
      let lineStatuses := lineData.lineStatuses.getD []
      let disruptions := lineData.disruptions.getD []
      let allMessages :=
        messagesFromStatuses lineStatuses ++ messagesFromDisruptions disruptions
      let combinedMessages := dedupByText allMessages
      let worstStatus := worstStatusOf lineStatuses
      let s2 : HelperState := { s1 with tubeStatus := some worstStatus }
      let statusSeverityDescription :=
        lineStatuses.head?.map TFLLineStatus.statusSeverityDescription
      (s2, { serviceURL := s2.serviceURL
             tubeStatus := worstStatus
             tubeStatusDescription :=
               some (if worstStatus ≠ "good" then statusSeverityDescription else none)
             combinedMessages := combinedMessages })
    | [] =>
      let s2 : HelperState := { s1 with tubeStatus := some "good" }
      (s2, { serviceURL := s2.serviceURL
             tubeStatus := "good"
             tubeStatusDescription := none
             combinedMessages := [] })

/-! ### Specification-side definitions

These follow the wording of the specification and are compared with the
embedded code by refinement theorems. -/

/-- Specification-side: the severities of the line-status entries whose
severity is not one of the "good" codes 10, 18, 19. -/
def nonGoodSeverities (lineStatuses : List TFLLineStatus) : List Nat :=
  (lineStatuses.map TFLLineStatus.statusSeverity).filter
    (fun v => decide (v ≠ 10 ∧ v ≠ 18 ∧ v ≠ 19))

/-- Specification-side aggregate status: the Severity→Status mapping applied
to the numerically smallest severity among entries whose severity is not in
{10, 18, 19}; `"good"` when the status list is empty or every severity is in
that set. -/
def specWorstStatus (lineStatuses : List TFLLineStatus) : String :=
  match nonGoodSeverities lineStatuses with
  | [] => "good"
  | v :: vs => mapStatusSeverity (vs.foldl Nat.min v)

/-- Specification-side deduplication: keep exactly the first occurrence of
each distinct non-empty text, in order; `seen` is the set of texts already
kept. -/
def keepFirstByText (seen : List String) :
    List StandardizedMessage → List StandardizedMessage
  | [] => []
  | m :: rest =>
    if m.text ≠ "" ∧ m.text ∉ seen then
      m :: keepFirstByText (m.text :: seen) rest
    else
      keepFirstByText seen rest

/-- Specification-side standardized message for a line-status entry:
`text` = `reason` if present, else the nested disruption's description;
category fields from the nested disruption if present, else empty;
severity fields copied from the entry. -/
def specStatusMessage (st : TFLLineStatus) : StandardizedMessage :=
  { text :=
      if st.reason ≠ "" then st.reason
      else
        match st.disruption with
        | some d => d.description
        | none => ""
    statusSeverity := st.statusSeverity
    statusSeverityDescription := st.statusSeverityDescription
    category :=
      match st.disruption with
      | some d => d.category
      | none => ""
    categoryDescription :=
      match st.disruption with
      | some d => d.categoryDescription
      | none => "" }

/-- Specification-side: a line-status entry contributes a message iff it has a
non-empty reason or a nested disruption with non-empty description. -/
def specHasStatusMessage (st : TFLLineStatus) : Bool :=
  st.reason != "" ||
    (match st.disruption with
     | some d => d.description != ""
     | none => false)

/-- Specification-side standardized message for a top-level disruption:
`text` = description, severity 0, empty severity description, category fields
from the disruption. -/
def specDisruptionMessage (d : TFLDisruption) : StandardizedMessage :=
  { text := d.description
    statusSeverity := 0
    statusSeverityDescription := ""
    category := d.category
    categoryDescription := d.categoryDescription }

/-- Specification-side pre-deduplication message list: statuses-derived
messages (for entries that have one) strictly before disruption-derived ones
(for disruptions with non-empty description). -/
def specAllMessages (lineStatuses : List TFLLineStatus)
    (disruptions : List TFLDisruption) : List StandardizedMessage :=
  (lineStatuses.filter specHasStatusMessage).map specStatusMessage ++
    (disruptions.filter (fun d => d.description != "")).map specDisruptionMessage

/-! ### Helper lemmas -/

theorem strOr_empty_right (a : String) : strOr a "" = a := by
  unfold strOr
  split
  · simp_all
  · rfl

theorem statusMessage_eq_spec (st : TFLLineStatus) :
    statusMessage st = specStatusMessage st := by
  unfold statusMessage specStatusMessage
  cases h : st.disruption with
  | none =>
    simp only [Option.map_none', Option.getD_none, strOr_empty_right, strOr]
    split
    · rename_i hr
      simp [hr]
    · rename_i hr
      simp [hr]
  | some d =>
    simp only [Option.map_some', Option.getD_some, strOr_empty_right]
    simp only [strOr]
    split
    · rename_i hr
      simp [hr]
    · rename_i hr
      simp [hr]

theorem statusMessageFilter_eq_spec (st : TFLLineStatus) :
    statusMessageFilter st = specHasStatusMessage st := rfl

theorem disruptionMessage_eq_spec (d : TFLDisruption) :
    disruptionMessage d = specDisruptionMessage d := by
  unfold disruptionMessage specDisruptionMessage
  simp [strOr_empty_right]

theorem allMessages_eq_spec (lineStatuses : List TFLLineStatus)
    (disruptions : List TFLDisruption) :
    messagesFromStatuses lineStatuses ++ messagesFromDisruptions disruptions =
      specAllMessages lineStatuses disruptions := by
  unfold messagesFromStatuses messagesFromDisruptions specAllMessages
  congr 1
  · rw [List.filter_congr (fun st _ => statusMessageFilter_eq_spec st)]
    exact List.map_congr_left (fun st _ => statusMessage_eq_spec st)
  · exact List.map_congr_left (fun d _ => disruptionMessage_eq_spec d)

theorem natMin_ite (a b : Nat) : Nat.min a b = if a ≤ b then a else b := rfl

theorem worstSeverityStep_ne_ten (w : Nat) (st : TFLLineStatus) (hw : w ≠ 10)
    (hst : st.statusSeverity ≠ 10 ∧ st.statusSeverity ≠ 18 ∧ st.statusSeverity ≠ 19) :
    worstSeverityStep w st = Nat.min w st.statusSeverity := by
  unfold worstSeverityStep
  rw [if_pos hst]
  rcases Nat.lt_or_ge st.statusSeverity w with hlt | hge
  · rw [if_pos (Or.inl hlt), natMin_ite, if_neg (by omega)]
  · rw [if_neg (by omega), natMin_ite, if_pos hge]

/-- Once the accumulator has left its initial value 10, the loop of lines
216-223 computes the running minimum over the non-good severities. -/
theorem foldl_worstSeverityStep_ne_ten (lineStatuses : List TFLLineStatus) :
    ∀ w : Nat, w ≠ 10 →
      lineStatuses.foldl worstSeverityStep w =
        (nonGoodSeverities lineStatuses).foldl Nat.min w := by
  induction lineStatuses with
  | nil => intro w _; rfl
  | cons st rest ih =>
    intro w hw
    by_cases hst : st.statusSeverity ≠ 10 ∧ st.statusSeverity ≠ 18 ∧ st.statusSeverity ≠ 19
    · have hstep := worstSeverityStep_ne_ten w st hw hst
      have hmem : Nat.min w st.statusSeverity ≠ 10 := by
        rw [natMin_ite]
        split
        · exact hw
        · exact hst.1
      rw [List.foldl_cons, hstep, ih _ hmem]
      unfold nonGoodSeverities
      rw [List.map_cons, List.filter_cons, if_pos (by simpa using hst)]
      rfl
    · have hstep : worstSeverityStep w st = w := by
        unfold worstSeverityStep
        rw [if_neg hst]
      rw [List.foldl_cons, hstep, ih _ hw]
      unfold nonGoodSeverities
      rw [List.map_cons, List.filter_cons, if_neg (by simpa using hst)]

/-- The full loop of lines 216-223, started at 10, yields 10 when every
severity is good and the minimum non-good severity otherwise. -/
theorem foldl_worstSeverityStep_init (lineStatuses : List TFLLineStatus) :
    lineStatuses.foldl worstSeverityStep 10 =
      match nonGoodSeverities lineStatuses with
      | [] => 10
      | v :: vs => vs.foldl Nat.min v := by
  induction lineStatuses with
  | nil => rfl
  | cons st rest ih =>
    by_cases hst : st.statusSeverity ≠ 10 ∧ st.statusSeverity ≠ 18 ∧ st.statusSeverity ≠ 19
    · have hstep : worstSeverityStep 10 st = st.statusSeverity := by
        unfold worstSeverityStep
        rw [if_pos hst, if_pos (Or.inr rfl)]
      rw [List.foldl_cons, hstep,
        foldl_worstSeverityStep_ne_ten rest st.statusSeverity hst.1]
      unfold nonGoodSeverities
      rw [List.map_cons, List.filter_cons, if_pos (by simpa using hst)]
    · have hstep : worstSeverityStep 10 st = 10 := by
        unfold worstSeverityStep
        rw [if_neg hst]
      rw [List.foldl_cons, hstep, ih]
      unfold nonGoodSeverities
      rw [List.map_cons, List.filter_cons, if_neg (by simpa using hst)]

theorem worstStatusOf_eq_spec (lineStatuses : List TFLLineStatus) :
    worstStatusOf lineStatuses = specWorstStatus lineStatuses := by
  unfold worstStatusOf specWorstStatus
  cases lineStatuses with
  | nil => rfl
  | cons st rest =>
    rw [if_pos (by simp), foldl_worstSeverityStep_init]
    cases h : nonGoodSeverities (st :: rest) with
    | nil => rfl
    | cons v vs => rfl

/-- `keepFirstByText` only depends on which texts are in `seen`. -/
theorem keepFirstByText_congr (msgs : List StandardizedMessage) :
    ∀ s1 s2 : List String, (∀ t, t ∈ s1 ↔ t ∈ s2) →
      keepFirstByText s1 msgs = keepFirstByText s2 msgs := by
  induction msgs with
  | nil => intro s1 s2 _; rfl
  | cons m rest ih =>
    intro s1 s2 h
    unfold keepFirstByText
    by_cases hc : m.text ≠ "" ∧ m.text ∉ s1
    · rw [if_pos hc, if_pos ⟨hc.1, fun hmem => hc.2 ((h m.text).mpr hmem)⟩]
      have : ∀ t, t ∈ m.text :: s1 ↔ t ∈ m.text :: s2 := by
        intro t
        simp only [List.mem_cons]
        exact or_congr Iff.rfl (h t)
      rw [ih _ _ this]
    · rw [if_neg hc, if_neg (by
        intro hc2
        exact hc ⟨hc2.1, fun hmem => hc2.2 ((h m.text).mp hmem)⟩)]
      exact ih _ _ h

/-- The dedup `forEach` of lines 200-209, started from any accumulator, keeps
the accumulator and appends the first occurrence of each further distinct
non-empty text not already present. -/
theorem foldl_dedupStep (msgs : List StandardizedMessage) :
    ∀ acc : List StandardizedMessage,
      msgs.foldl dedupStep acc =
        acc ++ keepFirstByText (acc.map StandardizedMessage.text) msgs := by
  induction msgs with
  | nil => intro acc; rw [List.foldl_nil, keepFirstByText, List.append_nil]
  | cons m rest ih =>
    intro acc
    rw [List.foldl_cons]
    by_cases hc : m.text ≠ "" ∧ m.text ∉ acc.map StandardizedMessage.text
    · have hstep : dedupStep acc m = acc ++ [m] := by
        unfold dedupStep
        rw [if_pos]
        refine (Bool.and_eq_true _ _).mpr ⟨by simpa using hc.1, ?_⟩
        rw [List.all_eq_true]
        intro x hx
        simp only [bne_iff_ne, ne_eq]
        intro hxe
        exact hc.2 (List.mem_map.mpr ⟨x, hx, hxe⟩)
      rw [hstep, ih, keepFirstByText, if_pos hc]
      have hseen : ∀ t, t ∈ (acc ++ [m]).map StandardizedMessage.text ↔
          t ∈ m.text :: acc.map StandardizedMessage.text := by
        intro t
        simp only [List.map_append, List.map_cons, List.map_nil, List.mem_append,
          List.mem_cons, List.mem_singleton, List.not_mem_nil, or_false]
        tauto
      rw [keepFirstByText_congr rest _ _ hseen, List.append_assoc]
      rfl
    · have hstep : dedupStep acc m = acc := by
        unfold dedupStep
        rw [if_neg]
        intro hb
        rcases (Bool.and_eq_true _ _).mp hb with ⟨h1, h2⟩
        refine hc ⟨by simpa using h1, ?_⟩
        intro hmem
        rcases List.mem_map.mp hmem with ⟨x, hx, hxe⟩
        have := (List.all_eq_true).mp h2 x hx
        simp only [bne_iff_ne, ne_eq] at this
        exact this hxe
      rw [hstep, ih, keepFirstByText, if_neg hc]

theorem dedupByText_eq_spec (msgs : List StandardizedMessage) :
    dedupByText msgs = keepFirstByText [] msgs := by
  unfold dedupByText
  rw [foldl_dedupStep]
  rfl

/-- The success branch of `getTubeLineStatusData` for a non-empty response
array, written out as an explicit notification. -/
theorem lineStatus_success_notification (s : HelperState) (p : String)
    (line : TFLLine) (rest : List TFLLine) :
    (getTubeLineStatusData s p (.ok (line :: rest))).2 =
      { serviceURL := some p
        tubeStatus := worstStatusOf (line.lineStatuses.getD [])
        tubeStatusDescription :=
          some (if worstStatusOf (line.lineStatuses.getD []) ≠ "good" then
              (line.lineStatuses.getD []).head?.map
                TFLLineStatus.statusSeverityDescription
            else none)
        combinedMessages :=
          dedupByText
            (messagesFromStatuses (line.lineStatuses.getD []) ++
              messagesFromDisruptions (line.disruptions.getD [])) } := rfl

/-! ### Concrete inputs for examples and witnesses -/

/-- A line-status entry with a given severity and severity description, no
reason and no nested disruption. -/
def sampleStatus (severity : Nat) (desc : String) : TFLLineStatus :=
  { id := 0
    lineId := "victoria"
    statusSeverity := severity
    statusSeverityDescription := desc
    reason := ""
    created := ""
    disruption := none }

/-- A line entry with given status and disruption arrays. -/
def sampleLine (statuses : Option (List TFLLineStatus))
    (ds : Option (List TFLDisruption)) : TFLLine :=
  { id := "victoria"
    name := "Victoria"
    modeName := "tube"
    disruptions := ds
    created := ""
    modified := ""
    lineStatuses := statuses }

/-- A standardized message with a given text and default remaining fields. -/
def sampleMessage (t : String) : StandardizedMessage :=
  { text := t
    statusSeverity := 0
    statusSeverityDescription := ""
    category := ""
    categoryDescription := "" }

/-! ### Claim theorems -/

/-- Claim C1: for every non-empty line-status response, the aggregate status
sent in the notification is the Severity→Status mapping applied to the
numerically smallest severity among the first line's entries whose severity is
not in {10, 18, 19}; it is `"good"` when the status list is empty or every
severity is in that set.  In particular severities [10, 9, 18, 3] give
`"severe"`. -/
theorem aggregateStatus_eq_smallest_nonGood :
    (∀ (s : HelperState) (p : String) (line : TFLLine) (rest : List TFLLine),
      (getTubeLineStatusData s p (.ok (line :: rest))).2.tubeStatus =
        specWorstStatus (line.lineStatuses.getD [])) ∧
    (getTubeLineStatusData ⟨none, none, none, none⟩ "url"
        (.ok [sampleLine
          (some [sampleStatus 10 "Good Service", sampleStatus 9 "Minor Delays",
            sampleStatus 18 "No Issues", sampleStatus 3 "Suspended"]) none])).2.tubeStatus =
      "severe" := by
  constructor
  · intro s p line rest
    rw [lineStatus_success_notification]
    exact worstStatusOf_eq_spec _
  · rfl

/-- Claim C2: `mapStatusSeverity` returns `"good"` exactly on {10, 18, 19},
`"severe"` exactly on {1, 2, 3, 6, 16, 20}, and `"warning"` on every other
value. -/
theorem mapStatusSeverity_classes (v : Nat) :
    (mapStatusSeverity v = "good" ↔ (v = 10 ∨ v = 18 ∨ v = 19)) ∧
    (mapStatusSeverity v = "severe" ↔
      (v = 1 ∨ v = 2 ∨ v = 3 ∨ v = 6 ∨ v = 16 ∨ v = 20)) ∧
    (¬(v = 10 ∨ v = 18 ∨ v = 19) →
      ¬(v = 1 ∨ v = 2 ∨ v = 3 ∨ v = 6 ∨ v = 16 ∨ v = 20) →
      mapStatusSeverity v = "warning") := by
  unfold mapStatusSeverity
  by_cases h1 : v = 10 ∨ v = 18 ∨ v = 19
  · rw [if_pos h1]
    have hsev : ¬(v = 1 ∨ v = 2 ∨ v = 3 ∨ v = 6 ∨ v = 16 ∨ v = 20) := by
      rcases h1 with h | h | h <;> subst h <;> decide
    exact ⟨iff_of_true rfl h1, iff_of_false (by decide) hsev,
      fun hc _ => absurd h1 hc⟩
  · rw [if_neg h1]
    by_cases h2 : v ∈ ([1, 2, 3, 6, 16, 20] : List Nat)
    · rw [if_pos h2]
      have h2' : v = 1 ∨ v = 2 ∨ v = 3 ∨ v = 6 ∨ v = 16 ∨ v = 20 := by
        simpa using h2
      exact ⟨iff_of_false (by decide) h1, iff_of_true rfl h2',
        fun _ hc => absurd h2' hc⟩
    · rw [if_neg h2]
      have h2' : ¬(v = 1 ∨ v = 2 ∨ v = 3 ∨ v = 6 ∨ v = 16 ∨ v = 20) := by
        simpa using h2
      exact ⟨iff_of_false (by decide) h1, iff_of_false (by decide) h2',
        fun _ _ => rfl⟩

/-- Witness for C2 at the concrete severity 7. -/
theorem mapStatusSeverity_classes_witness : mapStatusSeverity 7 = "warning" :=
  (mapStatusSeverity_classes 7).2.2 (by decide) (by decide)

/-- Claim C3: deduplication keeps exactly the first occurrence of each
distinct non-empty text, in concatenation order, and drops empty-text
messages; texts ["A", "B", "A", "C"] yield ["A", "B", "C"]; the notification's
`combinedMessages` is exactly this deduplication of the concatenated message
lists. -/
theorem combinedMessages_first_occurrence :
    (∀ msgs : List StandardizedMessage,
      dedupByText msgs = keepFirstByText [] msgs) ∧
    ((dedupByText [sampleMessage "A", sampleMessage "B", sampleMessage "A",
        sampleMessage "C"]).map StandardizedMessage.text = ["A", "B", "C"]) ∧
    (∀ (s : HelperState) (p : String) (line : TFLLine) (rest : List TFLLine),
      (getTubeLineStatusData s p (.ok (line :: rest))).2.combinedMessages =
        keepFirstByText []
          (messagesFromStatuses (line.lineStatuses.getD []) ++
            messagesFromDisruptions (line.disruptions.getD []))) := by
  refine ⟨dedupByText_eq_spec, by rfl, ?_⟩
  intro s p line rest
  rw [lineStatus_success_notification]
  exact dedupByText_eq_spec _

/-- Claim C4: the pre-deduplication message list is the statuses-derived
messages (exactly the entries with a non-empty reason or a nested disruption
with non-empty description, standardized as the spec describes) followed by
the disruption-derived messages (exactly the disruptions with non-empty
description, with severity 0); reason "Delays" plus description
"Signal failure" yield texts ["Delays", "Signal failure"] in that order. -/
theorem allMessages_spec_shape :
    (∀ (lineStatuses : List TFLLineStatus) (disruptions : List TFLDisruption),
      messagesFromStatuses lineStatuses ++ messagesFromDisruptions disruptions =
        specAllMessages lineStatuses disruptions) ∧
    ((messagesFromStatuses
        [{ sampleStatus 5 "Minor Delays" with reason := "Delays" }] ++
      messagesFromDisruptions
        [{ category := "RealTime"
           categoryDescription := "RealTime"
           description := "Signal failure"
           closureText := "" }]).map StandardizedMessage.text =
      ["Delays", "Signal failure"]) := by
  exact ⟨allMessages_eq_spec, by rfl⟩

theorem mapStatusSeverity_ne_empty (v : Nat) : mapStatusSeverity v ≠ "" := by
  unfold mapStatusSeverity
  split
  · decide
  · split
    · decide
    · decide

theorem worstStatusOf_ne_empty (lineStatuses : List TFLLineStatus) :
    worstStatusOf lineStatuses ≠ "" := by
  unfold worstStatusOf
  split
  · exact mapStatusSeverity_ne_empty _
  · decide

/-- The stored `this.tubeStatus` is never the empty string: it starts
undefined and is only ever assigned `"good"` or a `mapStatusSeverity` result,
so the hypothesis of `lineStatus_failure_response` holds in every reachable
state. -/
theorem tubeStatus_ne_empty_preserved (s : HelperState) (p : String)
    (outcome : Except Unit (List TFLLine)) (hs : s.tubeStatus ≠ some "") :
    (getTubeLineStatusData s p outcome).1.tubeStatus ≠ some "" := by
  cases outcome with
  | error e => exact hs
  | ok data =>
    cases data with
    | nil =>
      intro hc
      exact absurd (Option.some.inj hc) (by decide)
    | cons line rest =>
      intro hc
      exact worstStatusOf_ne_empty _ (Option.some.inj hc)

/-- Claim C5: on a failed line-status fetch the handler replies (it never
throws: the embedding is a total function) with the last known status if one
exists and `"good"` otherwise, an empty message list, and no
`tubeStatusDescription` field in the payload.  The hypothesis rules out a
stored empty-string status, which `tubeStatus_ne_empty_preserved` shows is
unreachable. -/
theorem lineStatus_failure_response (s : HelperState) (p : String)
    (h : s.tubeStatus ≠ some "") :
    (getTubeLineStatusData s p (.error ())).2 =
      { serviceURL := some p
        tubeStatus := s.tubeStatus.getD "good"
        tubeStatusDescription := none
        combinedMessages := [] } := by
  unfold getTubeLineStatusData lineStatusOnError optStrOr strOr
  cases ht : s.tubeStatus with
  | none => rfl
  | some t =>
    have htne : t ≠ "" := fun he => h (by rw [ht, he])
    simp [htne]

/-- Witness for C5 with a stored status `"severe"`. -/
theorem lineStatus_failure_response_witness :
    ((⟨none, none, some "severe", none⟩ : HelperState).tubeStatus ≠ some "") ∧
    (getTubeLineStatusData ⟨none, none, some "severe", none⟩ "u"
        (.error ())).2 =
      { serviceURL := some "u"
        tubeStatus :=
          (⟨none, none, some "severe", none⟩ : HelperState).tubeStatus.getD "good"
        tubeStatusDescription := none
        combinedMessages := [] } :=
  ⟨by decide, lineStatus_failure_response ⟨none, none, some "severe", none⟩ "u"
    (by decide)⟩

/-- Claim C6: an empty (but well-formed) response array is handled, not an
error: the notification is status `"good"` with empty messages (and no
description field). -/
theorem lineStatus_empty_response (s : HelperState) (p : String) :
    (getTubeLineStatusData s p (.ok [])).2 =
      { serviceURL := some p
        tubeStatus := "good"
        tubeStatusDescription := none
        combinedMessages := [] } := rfl

/-- Claim C7: on a successful response the `tubeStatusDescription` field is
the severity description of the *first* line-status entry whenever the
aggregate status is not `"good"`, and `null` whenever it is `"good"`. -/
theorem statusDescription_from_first_entry (s : HelperState) (p : String)
    (line : TFLLine) (rest : List TFLLine) :
    ((getTubeLineStatusData s p (.ok (line :: rest))).2.tubeStatus ≠ "good" →
      ∃ (m : TFLLineStatus) (tl : List TFLLineStatus),
        line.lineStatuses.getD [] = m :: tl ∧
        (getTubeLineStatusData s p (.ok (line :: rest))).2.tubeStatusDescription =
          some (some m.statusSeverityDescription)) ∧
    ((getTubeLineStatusData s p (.ok (line :: rest))).2.tubeStatus = "good" →
      (getTubeLineStatusData s p (.ok (line :: rest))).2.tubeStatusDescription =
        some none) := by
  rw [lineStatus_success_notification]
  constructor
  · intro hne
    cases hls : line.lineStatuses.getD [] with
    | nil =>
      rw [hls] at hne
      exact absurd rfl hne
    | cons m tl =>
      rw [hls] at hne
      refine ⟨m, tl, rfl, ?_⟩
      rw [if_pos hne]
      rfl
  · intro hg
    simp only [hg] at *
    rw [if_neg (not_not_intro hg)]

/-- Witness for C7 at a line with one severe status entry. -/
theorem statusDescription_from_first_entry_witness :
    ∃ (m : TFLLineStatus) (tl : List TFLLineStatus),
      (sampleLine (some [sampleStatus 3 "Suspended"]) none).lineStatuses.getD []
          = m :: tl ∧
      (getTubeLineStatusData ⟨none, none, none, none⟩ "u"
          (.ok [sampleLine (some [sampleStatus 3 "Suspended"]) none])).2.tubeStatusDescription =
        some (some m.statusSeverityDescription) :=
  (statusDescription_from_first_entry ⟨none, none, none, none⟩ "u"
    (sampleLine (some [sampleStatus 3 "Suspended"]) none) []).1 (by decide)

/-- Claim C8: the arrivals fetcher forwards the response array verbatim on
success and `null` on failure; the embedding is a total function, so no
exception propagates. -/
theorem arrivals_verbatim_or_null :
    (∀ (s : HelperState) (p : String) (data : List TFLArrival),
      (getTubeStatusData s p (.ok data)).2 =
        { url := some p, result := some data }) ∧
    (∀ (s : HelperState) (p : String) (e : Unit),
      (getTubeStatusData s p (.error e)).2 = { url := some p, result := none }) :=
  ⟨fun _ _ _ => rfl, fun _ _ _ => rfl⟩

/-- Claim C9: the catch callback of the line-status fetch sets the shared
`this.result` field (the arrivals result) to `null` and leaves `this.url`,
`this.serviceURL` and `this.tubeStatus` unchanged; on the whole failed request
the state is the input state with `serviceURL` set to the payload (done before
the fetch) and `result` reset to `none`. -/
theorem lineStatus_failure_state_frame (s : HelperState) :
    (lineStatusOnError s).1.result = none ∧
    (lineStatusOnError s).1.url = s.url ∧
    (lineStatusOnError s).1.serviceURL = s.serviceURL ∧
    (lineStatusOnError s).1.tubeStatus = s.tubeStatus ∧
    (∀ p : String,
      (getTubeLineStatusData s p (.error ())).1 =
        { s with serviceURL := some p, result := none }) :=
  ⟨rfl, rfl, rfl, rfl, fun _ => rfl⟩

/-- Claim C10: a first line whose `lineStatuses` and `disruptions` fields are
missing (or null) is handled as if both were empty arrays: the notification is
status `"good"`, description `null`, no messages; moreover a missing field
gives exactly the same result as an explicitly empty array. -/
theorem missing_fields_default_empty :
    (∀ (s : HelperState) (p : String) (line : TFLLine) (rest : List TFLLine),
      (getTubeLineStatusData s p
          (.ok ({ line with lineStatuses := none, disruptions := none } :: rest))).2 =
        { serviceURL := some p
          tubeStatus := "good"
          tubeStatusDescription := some none
          combinedMessages := [] }) ∧
    (∀ (s : HelperState) (p : String) (line : TFLLine) (rest : List TFLLine),
      getTubeLineStatusData s p (.ok ({ line with lineStatuses := none } :: rest)) =
        getTubeLineStatusData s p
          (.ok ({ line with lineStatuses := some [] } :: rest))) ∧
    (∀ (s : HelperState) (p : String) (line : TFLLine) (rest : List TFLLine),
      getTubeLineStatusData s p (.ok ({ line with disruptions := none } :: rest)) =
        getTubeLineStatusData s p
          (.ok ({ line with disruptions := some [] } :: rest))) :=
  ⟨fun _ _ _ _ => rfl, fun _ _ _ _ => rfl, fun _ _ _ _ => rfl⟩

end TubeTimes
